import Mathlib

/-!
Verification of the key-repeat event source in src/seat/keyboard/repeat.rs.

The Rust source is shallowly embedded: the mutable fields of the
KeyRepeatSource struct become a Lean structure, the closure passed to the
channel becomes processMessage / processChannel, the closure passed to the
timer becomes timerClosure, and the whole process_events dispatch becomes
the Lean function process_events.  Machine integers are modelled as Nat
with explicit reduction mod 2^32 where the Rust code performs u32
arithmetic.  Durations are modelled as Nat microseconds, so that
Duration.from_millis d is 1000 * d and Duration.from_micros g is g.
-/

/-- The modulus of u32 arithmetic. -/
def u32Mod : Nat := 4294967296

/-- A key occurrence.  The source type carries further payload (keysym,
utf8 text); only the timestamp is read or written by the repeat machinery,
so the rest of the payload is modelled by the single field raw_code, which
makes cloning observable.  time is the u32 millisecond timestamp. -/
structure KeyEvent where
  raw_code : Nat
  time : Nat
deriving DecidableEq

/-- RepeatInfo from the keyboard module.  rate models the value of
rate.get() on the NonZeroU32 field (repeats per second), delay the u32
millisecond delay. -/
inductive RepeatInfo where
  | Repeat (rate : Nat) (delay : Nat)
  | Disable
deriving DecidableEq

/-- RepeatMessage (repeat.rs lines 20-27).  The constructor carrying a
RepeatInfo is named RepeatInfoMsg to avoid shadowing the type name. -/
inductive RepeatMessage where
  | StopRepeat
  | StartRepeat (event : KeyEvent)
  | RepeatInfoMsg (info : RepeatInfo)
deriving DecidableEq

/-- The mutable state of KeyRepeatSource (repeat.rs lines 31-39): gap and
delay are the u64 millisecond fields, disabled the flag, key the latched
key.  timerDurationUs models the duration the timer is currently armed
with, in microseconds (set_duration / TimeoutAction::ToDuration). -/
structure KeyRepeatSource where
  gap : Nat
  delay : Nat
  disabled : Bool
  key : Option KeyEvent
  timerDurationUs : Nat
deriving DecidableEq

/-- The freshly constructed source of get_keyboard_with_repeat_with_data
(repeat.rs lines 99-106): Timer::immediate() is armed with duration 0. -/
def initialSource : KeyRepeatSource :=
  { gap := 0, delay := 0, disabled := true, key := none, timerDurationUs := 0 }

/-- One arm of the match on RepeatMessage inside the channel closure
(repeat.rs lines 139-171).
StopRepeat: key.take().
StartRepeat: event.time += *delay_mut as u32 (u32 wrapping arithmetic),
key.replace(event), timer.set_duration(Duration::from_millis(*delay_mut)).
RepeatInfo::Repeat: *gap = (rate.get() / 1000) as u64, *delay_mut = delay,
disabled = false, timer.set_duration(Duration::from_millis(*delay_mut)).
RepeatInfo::Disable: key.take(), disabled = true. -/
def processMessage (s : KeyRepeatSource) (m : RepeatMessage) : KeyRepeatSource :=
  match m with
  | .StopRepeat => { s with key := none }
  | .StartRepeat e =>
      { s with
        key := some { e with time := (e.time + s.delay % u32Mod) % u32Mod },
        timerDurationUs := 1000 * s.delay }
  | .RepeatInfoMsg (.Repeat rate delay) =>
      { s with
        gap := rate / 1000,
        delay := delay,
        disabled := false,
        timerDurationUs := 1000 * delay }
  | .RepeatInfoMsg .Disable => { s with key := none, disabled := true }

/-- Model of Option::unwrap on the cloned latched key (repeat.rs line 192).
A panic cannot be modelled, so the default key event stands in for the
panic; the safety theorem shows the default is never reached on the
emission path. -/
def unwrapKeyEvent (o : Option KeyEvent) : KeyEvent :=
  o.getD { raw_code := 0, time := 0 }

/-- Result of one run of the timer closure (repeat.rs lines 186-198):
emitted is the argument passed to the callback (none when the guard
returns early), rearmUs the duration of the returned
TimeoutAction::ToDuration in microseconds, and eventVar the final value of
the closure-local mutable parameter event (an Instant, modelled as Nat
microseconds), which the caller discards because the returned action is
ToDuration. -/
structure TimerFire where
  emitted : Option KeyEvent
  rearmUs : Nat
  eventVar : Nat
deriving DecidableEq

/-- The closure passed to timer.process_events (repeat.rs lines 186-198).
Guard: if self.disabled || key.is_none() rearm with
Duration::from_millis(*delay_mut) and emit nothing.  Otherwise invoke the
callback with key.clone().unwrap(), then event += Duration::from_millis(*gap)
(a write to the by-value Instant parameter, discarded), and return
TimeoutAction::ToDuration(Duration::from_micros(*gap)).  The latched key
itself is not modified here. -/
def timerClosure (s : KeyRepeatSource) (event : Nat) : TimerFire :=
  if s.disabled || s.key.isNone then
    { emitted := none, rearmUs := 1000 * s.delay, eventVar := event }
  else
    { emitted := some (unwrapKeyEvent s.key),
      rearmUs := s.gap,
      eventVar := event + 1000 * s.gap }

/-- An atomic observable step of the state machine: either one drained
channel message, or one serviced timer expiry (whose argument is the
Instant the timer fired at).  Every dispatch of process_events decomposes
into a sequence of such steps, messages first. -/
inductive RepeatStep where
  | msg (m : RepeatMessage)
  | expire (instant : Nat)
deriving DecidableEq

/-- Whether a step is the delivery of a StartRepeat message. -/
def isStartRepeatStep : RepeatStep → Bool
  | .msg (.StartRepeat _) => true
  | _ => false

/-- Apply one step: a message mutates the state and emits nothing; a timer
expiry runs the timer closure and rearms the timer with the duration the
closure returned. -/
def applyStep (s : KeyRepeatSource) (st : RepeatStep) : KeyRepeatSource × Option KeyEvent :=
  match st with
  | .msg m => (processMessage s m, none)
  | .expire t =>
      let fire := timerClosure s t
      ({ s with timerDurationUs := fire.rearmUs }, fire.emitted)

/-- Run a sequence of steps from a state, collecting the emitted events in
order. -/
def runSteps : KeyRepeatSource → List RepeatStep → KeyRepeatSource × List KeyEvent
  | s, [] => (s, [])
  | s, st :: rest =>
      let stepRes := applyStep s st
      let restRes := runSteps stepRes.1 rest
      (restRes.1, stepRes.2.toList ++ restRes.2)

/-- An event drained from the calloop channel: a data message or the
terminal closed signal. -/
inductive ChannelEvent where
  | Msg (m : RepeatMessage)
  | Closed
deriving DecidableEq

/-- Drain of the channel inside process_events (repeat.rs lines 135-179):
each message mutates the state via the match, Closed sets the removed
flag, which starts out false on every dispatch. -/
def processChannel (s : KeyRepeatSource) (evs : List ChannelEvent) : KeyRepeatSource × Bool :=
  evs.foldl
    (fun acc ev =>
      match ev with
      | .Msg m => (processMessage acc.1 m, acc.2)
      | .Closed => (acc.1, true))
    (s, false)

/-- Opaque error value returned by the channel servicing call. -/
structure ChannelError where
  code : Nat
deriving DecidableEq

/-- Opaque io::Error value returned by the timer servicing call. -/
structure IoError where
  code : Nat
deriving DecidableEq

/-- calloop PostAction, restricted to the two values this source
produces. -/
inductive PostAction where
  | Continue
  | Remove
deriving DecidableEq

/-- Outcome of one process_events dispatch: a panic (the unwrap on the
channel servicing result observing an error), a normal return carrying the
PostAction, the final state and the list of callback invocations, or a
propagated io::Error from the timer servicing call. -/
inductive RunResult where
  | panic (e : ChannelError)
  | ok (post : PostAction) (s : KeyRepeatSource) (emitted : List KeyEvent)
  | err (e : IoError)
deriving DecidableEq

/-- Whether a RunResult is the err constructor. -/
def RunResult.isErr : RunResult → Bool
  | .err _ => true
  | _ => false

/-- process_events (repeat.rs lines 118-199).  chanService models the
result of self.channel.process_events: an error, or the list of channel
events drained in order.  timerService models the result of
timer.process_events: an error, or none when the timer produced no expiry
this dispatch, or some instant when it fired once.  The channel result is
unwrapped (line 179): an error there is a panic, not a return.  If the
removed flag was set the function returns Ok(PostAction::Remove) without
touching the timer (lines 182-184).  Otherwise the timer is serviced and
its result returned. -/
def process_events (s : KeyRepeatSource)
    (chanService : Except ChannelError (List ChannelEvent))
    (timerService : Except IoError (Option Nat)) : RunResult :=
  match chanService with
  | .error e => .panic e
  | .ok evs =>
      let drained := processChannel s evs
      if drained.2 then
        .ok .Remove drained.1 []
      else
        match timerService with
        | .error e => .err e
        | .ok none => .ok .Continue drained.1 []
        | .ok (some instant) =>
            let fire := timerClosure drained.1 instant
            .ok .Continue { drained.1 with timerDurationUs := fire.rearmUs }
              fire.emitted.toList

/-- A sample armed state used to instantiate theorems with hypotheses: the
source is enabled and holds a latched key, as after
RepeatInfo::Repeat{rate:2000, delay:3} followed by StartRepeat. -/
def armedSample : KeyRepeatSource :=
  { gap := 2, delay := 3, disabled := false,
    key := some { raw_code := 7, time := 5 }, timerDurationUs := 3000 }

/-- Claim C3: processing RepeatInfo::Repeat{rate, delay} sets gap to the
truncated integer division rate / 1000, sets delay to the given delay,
clears the disabled flag, and rearms the timer to fire after the new delay
in milliseconds; in particular rate 500 yields gap 0 and rate 1500000
yields gap 1500. -/
theorem repeat_info_sets_cadence (s : KeyRepeatSource) (rate delay : Nat) :
    processMessage s (.RepeatInfoMsg (.Repeat rate delay)) =
      { s with gap := rate / 1000, delay := delay, disabled := false,
               timerDurationUs := 1000 * delay } ∧
    (processMessage s (.RepeatInfoMsg (.Repeat 500 delay))).gap = 0 ∧
    (processMessage s (.RepeatInfoMsg (.Repeat 1500000 delay))).gap = 1500 :=
  ⟨rfl, rfl, rfl⟩

/-- Claim C7: StopRepeat sets the latched key to none and changes nothing
else: delay, gap, the disabled flag and the armed timer duration are left
exactly as they were. -/
theorem stop_repeat_only_clears_key (s : KeyRepeatSource) :
    processMessage s .StopRepeat = { s with key := none } ∧
    (processMessage s .StopRepeat).delay = s.delay ∧
    (processMessage s .StopRepeat).gap = s.gap ∧
    (processMessage s .StopRepeat).disabled = s.disabled ∧
    (processMessage s .StopRepeat).timerDurationUs = s.timerDurationUs :=
  ⟨rfl, rfl, rfl, rfl, rfl⟩

/-- Claim C9: RepeatInfo::Disable clears the latched key and sets the
disabled flag but leaves the armed timer duration, delay and gap
unchanged; the next serviced expiry of that still-armed timer emits
nothing and only then rearms with the delay in milliseconds. -/
theorem disable_clears_key_preserves_timer (s : KeyRepeatSource) (t : Nat) :
    processMessage s (.RepeatInfoMsg .Disable) =
      { s with key := none, disabled := true } ∧
    (processMessage s (.RepeatInfoMsg .Disable)).timerDurationUs = s.timerDurationUs ∧
    (processMessage s (.RepeatInfoMsg .Disable)).delay = s.delay ∧
    (processMessage s (.RepeatInfoMsg .Disable)).gap = s.gap ∧
    (timerClosure (processMessage s (.RepeatInfoMsg .Disable)) t).emitted = none ∧
    (timerClosure (processMessage s (.RepeatInfoMsg .Disable)) t).rearmUs = 1000 * s.delay := by
  refine ⟨rfl, rfl, rfl, rfl, ?_, ?_⟩ <;> simp [timerClosure, processMessage]

/-- Claim C1: evaluation of the code at the scenario of the spec
(RepeatInfo::Repeat{rate:1000, delay:500}, then StartRepeat with time
1000, then two timer expiries).  The second emitted event still carries
time 1500 rather than 1501, because the closure adds the gap to its
by-value Instant parameter instead of to the latched key, and the timer is
rearmed with Duration::from_micros(gap), i.e. 1 microsecond rather than
the 1 millisecond gap. -/
theorem repeat_expiry_micros_and_stale_time :
    (runSteps initialSource
      [RepeatStep.msg (.RepeatInfoMsg (.Repeat 1000 500)),
       RepeatStep.msg (.StartRepeat { raw_code := 7, time := 1000 }),
       RepeatStep.expire 100, RepeatStep.expire 200]).2 =
      [{ raw_code := 7, time := 1500 }, { raw_code := 7, time := 1500 }] ∧
    (runSteps initialSource
      [RepeatStep.msg (.RepeatInfoMsg (.Repeat 1000 500)),
       RepeatStep.msg (.StartRepeat { raw_code := 7, time := 1000 }),
       RepeatStep.expire 100]).1.gap = 1 ∧
    (runSteps initialSource
      [RepeatStep.msg (.RepeatInfoMsg (.Repeat 1000 500)),
       RepeatStep.msg (.StartRepeat { raw_code := 7, time := 1000 }),
       RepeatStep.expire 100]).1.timerDurationUs = 1 := by
  decide

/-- Claim C4, counterexample: a StartRepeat processed from the initial
state (whose disabled flag is true) latches a key without enabling, so the
reachable state one message after construction has disabled true together
with a latched key, refuting the claimed invariant that a false enabled
flag forces the latched key to be none. -/
theorem start_while_disabled_latches_key :
    (processMessage initialSource (.StartRepeat { raw_code := 7, time := 100 })).disabled = true ∧
    (processMessage initialSource (.StartRepeat { raw_code := 7, time := 100 })).key ≠ none := by
  decide

/-- Helper: a step that is not a StartRepeat delivery keeps an absent
latched key absent and emits nothing. -/
theorem applyStep_key_none (s : KeyRepeatSource) (st : RepeatStep)
    (hk : s.key = none) (hs : isStartRepeatStep st = false) :
    ((applyStep s st).1).key = none ∧ (applyStep s st).2 = none := by
  cases st with
  | msg m =>
    cases m with
    | StopRepeat => exact ⟨rfl, rfl⟩
    | StartRepeat e => simp [isStartRepeatStep] at hs
    | RepeatInfoMsg info =>
      cases info with
      | Repeat rate delay => exact ⟨hk, rfl⟩
      | Disable => exact ⟨rfl, rfl⟩
  | expire t => simp [applyStep, timerClosure, hk]

/-- Helper: from a state with no latched key, a run containing no
StartRepeat delivery emits nothing. -/
theorem runSteps_emits_nil (l : List RepeatStep) :
    ∀ s : KeyRepeatSource, s.key = none →
      (l.all fun st => !(isStartRepeatStep st)) = true → (runSteps s l).2 = [] := by
  induction l with
  | nil => intro s _ _; rfl
  | cons st rest ih =>
    intro s hk hall
    rw [List.all_cons] at hall
    have hall' := (Bool.and_eq_true _ _).mp hall
    have h1 : isStartRepeatStep st = false := by simpa using hall'.1
    have hstep := applyStep_key_none s st hk h1
    have hrest := ih (applyStep s st).1 hstep.1 hall'.2
    simp [runSteps, hstep.2, hrest]

/-- Claim C2: once a StopRepeat or a RepeatInfo::Disable has been
processed, no later timer expiry invokes the callback as long as no
StartRepeat is delivered, from any prior state; and a StartRepeat followed
in the same batch by a StopRepeat, with no expiry in between, produces
zero callback invocations even when the timer fires afterwards. -/
theorem stop_or_disable_blocks_until_start (s : KeyRepeatSource)
    (l : List RepeatStep) (e : KeyEvent) (t : Nat)
    (hl : (l.all fun st => !(isStartRepeatStep st)) = true) :
    (runSteps (processMessage s .StopRepeat) l).2 = [] ∧
    (runSteps (processMessage s (.RepeatInfoMsg .Disable)) l).2 = [] ∧
    (runSteps s
      [RepeatStep.msg (.StartRepeat e), RepeatStep.msg .StopRepeat,
       RepeatStep.expire t]).2 = [] := by
  refine ⟨runSteps_emits_nil l _ rfl hl, runSteps_emits_nil l _ rfl hl, ?_⟩
  simp [runSteps, applyStep, processMessage, timerClosure]

/-- Witness for C2 at a concrete state, step list without StartRepeat, key
event and expiry instant. -/
theorem stop_or_disable_blocks_until_start_witness :
    (([RepeatStep.expire 3, RepeatStep.msg (.RepeatInfoMsg (.Repeat 1000 500)),
       RepeatStep.expire 4].all fun st => !(isStartRepeatStep st)) = true) ∧
    ((runSteps (processMessage initialSource .StopRepeat)
        [RepeatStep.expire 3, RepeatStep.msg (.RepeatInfoMsg (.Repeat 1000 500)),
         RepeatStep.expire 4]).2 = [] ∧
     (runSteps (processMessage initialSource (.RepeatInfoMsg .Disable))
        [RepeatStep.expire 3, RepeatStep.msg (.RepeatInfoMsg (.Repeat 1000 500)),
         RepeatStep.expire 4]).2 = [] ∧
     (runSteps initialSource
        [RepeatStep.msg (.StartRepeat { raw_code := 7, time := 9 }),
         RepeatStep.msg .StopRepeat, RepeatStep.expire 11]).2 = []) :=
  ⟨by decide,
   stop_or_disable_blocks_until_start initialSource
     [RepeatStep.expire 3, RepeatStep.msg (.RepeatInfoMsg (.Repeat 1000 500)),
      RepeatStep.expire 4] { raw_code := 7, time := 9 } 11 (by decide)⟩

/-- Claim C4 (amended): immediately after a StopRepeat or a
RepeatInfo::Disable message the latched key is none, and a timer expiry
emits nothing whenever the source is disabled or no key is latched.  The
original stronger invariant, that a disabled source never holds a latched
key, fails: see the counterexample. -/
theorem no_emission_while_disabled_or_unlatched (s : KeyRepeatSource) (t : Nat)
    (h : s.disabled = true ∨ s.key = none) :
    (processMessage s .StopRepeat).key = none ∧
    (processMessage s (.RepeatInfoMsg .Disable)).key = none ∧
    (timerClosure s t).emitted = none := by
  refine ⟨rfl, rfl, ?_⟩
  rcases h with h | h <;> simp [timerClosure, h]

/-- Witness for the amended C4 at the initial state. -/
theorem no_emission_while_disabled_or_unlatched_witness :
    (initialSource.disabled = true ∨ initialSource.key = none) ∧
    ((processMessage initialSource .StopRepeat).key = none ∧
     (processMessage initialSource (.RepeatInfoMsg .Disable)).key = none ∧
     (timerClosure initialSource 0).emitted = none) :=
  ⟨Or.inl rfl, no_emission_while_disabled_or_unlatched initialSource 0 (Or.inl rfl)⟩

/-- Claim C10: on the emission path of the timer closure, i.e. whenever
the guard on disabled-or-no-key is false, the latched key is some event,
the modelled unwrap returns exactly that event (never its default), and
the callback receives it. -/
theorem emission_unwrap_never_fails (s : KeyRepeatSource) (t : Nat)
    (h : (s.disabled || s.key.isNone) = false) :
    s.key = some (unwrapKeyEvent s.key) ∧
    (timerClosure s t).emitted = some (unwrapKeyEvent s.key) := by
  rcases hk : s.key with _ | k
  · rw [hk] at h
    simp at h
  · have hd : s.disabled = false := by
      rw [hk] at h
      simpa using h
    refine ⟨?_, ?_⟩
    · simp [hk, unwrapKeyEvent]
    · simp [timerClosure, hk, hd]

/-- Witness for C10 at a concrete armed state with a latched key. -/
theorem emission_unwrap_never_fails_witness :
    (armedSample.disabled || armedSample.key.isNone) = false ∧
    (armedSample.key = some (unwrapKeyEvent armedSample.key) ∧
     (timerClosure armedSample 0).emitted = some (unwrapKeyEvent armedSample.key)) :=
  ⟨by decide, emission_unwrap_never_fails armedSample 0 (by decide)⟩

/-- Claim C8: the freshly constructed source has delay 0, gap 0, disabled
true and no latched key; a StartRepeat processed before any
RepeatInfo::Repeat latches the key with its timestamp unchanged (0 is
added, using that the u32 timestamp is below 2^32) and arms the timer with
a zero-millisecond duration, while a timer expiry in that state still
emits nothing because disabled remains true. -/
theorem fresh_source_start_before_info (e : KeyEvent) (t : Nat)
    (h : e.time < u32Mod) :
    initialSource.delay = 0 ∧ initialSource.gap = 0 ∧
    initialSource.disabled = true ∧ initialSource.key = none ∧
    processMessage initialSource (.StartRepeat e) =
      { initialSource with key := some e, timerDurationUs := 0 } ∧
    (timerClosure (processMessage initialSource (.StartRepeat e)) t).emitted = none := by
  refine ⟨rfl, rfl, rfl, rfl, ?_, ?_⟩
  · cases e with
    | mk rc tm => simp [processMessage, initialSource, Nat.mod_eq_of_lt h]
  · simp [timerClosure, processMessage, initialSource]

/-- Witness for C8 at a concrete key event. -/
theorem fresh_source_start_before_info_witness :
    ({ raw_code := 7, time := 1000 } : KeyEvent).time < u32Mod ∧
    (initialSource.delay = 0 ∧ initialSource.gap = 0 ∧
     initialSource.disabled = true ∧ initialSource.key = none ∧
     processMessage initialSource (.StartRepeat { raw_code := 7, time := 1000 }) =
       { initialSource with key := some { raw_code := 7, time := 1000 },
                            timerDurationUs := 0 } ∧
     (timerClosure
        (processMessage initialSource (.StartRepeat { raw_code := 7, time := 1000 }))
        4).emitted = none) :=
  ⟨by decide, fresh_source_start_before_info { raw_code := 7, time := 1000 } 4 (by decide)⟩

/-- Claim C6: when the drained channel events include the closed signal,
process_events returns Ok(PostAction::Remove) with the state as left by
the drained messages, no event emitted and no timer servicing, whatever
the timer servicing would have produced (a pending expiry or even an
error). -/
theorem closed_channel_returns_remove (s : KeyRepeatSource)
    (evs : List ChannelEvent) (tim : Except IoError (Option Nat))
    (h : (processChannel s evs).2 = true) :
    process_events s (.ok evs) tim =
      .ok .Remove (processChannel s evs).1 [] := by
  simp [process_events, h]

/-- Witness for C6: a dispatch that drains only the closed signal while
the timer has a pending expiry. -/
theorem closed_channel_returns_remove_witness :
    (processChannel initialSource [ChannelEvent.Closed]).2 = true ∧
    process_events initialSource (.ok [ChannelEvent.Closed]) (.ok (some 5)) =
      .ok .Remove initialSource [] :=
  ⟨by decide,
   (closed_channel_returns_remove initialSource [ChannelEvent.Closed]
     (.ok (some 5)) (by decide)).trans (by decide)⟩

/-- Claim C5, counterexample: an error from the channel servicing call is
not propagated as the Err result of process_events; the unwrap on it
panics instead, as evaluated here at a concrete channel error. -/
theorem channel_error_causes_panic :
    process_events initialSource (Except.error { code := 3 }) (Except.ok none) =
      RunResult.panic { code := 3 } ∧
    RunResult.isErr
      (process_events initialSource (Except.error { code := 3 }) (Except.ok none)) =
      false := by
  decide

/-- Claim C5 (amended): an error from the timer servicing call is
propagated unchanged as the Err result of process_events (when the channel
did not signal closure), while an error from the channel servicing call
makes process_events panic through the unwrap rather than return. -/
theorem timer_error_propagated_channel_error_panics (s : KeyRepeatSource)
    (evs : List ChannelEvent) (ce : ChannelError) (ie : IoError)
    (tim : Except IoError (Option Nat))
    (h : (processChannel s evs).2 = false) :
    process_events s (Except.error ce) tim = RunResult.panic ce ∧
    process_events s (Except.ok evs) (Except.error ie) = RunResult.err ie :=
  ⟨rfl, by simp [process_events, h]⟩

/-- Witness for the amended C5 at concrete errors. -/
theorem timer_error_propagated_channel_error_panics_witness :
    (processChannel initialSource [ChannelEvent.Msg .StopRepeat]).2 = false ∧
    (process_events initialSource (Except.error { code := 1 }) (Except.ok none) =
       RunResult.panic { code := 1 } ∧
     process_events initialSource (Except.ok [ChannelEvent.Msg .StopRepeat])
       (Except.error { code := 2 }) = RunResult.err { code := 2 }) :=
  ⟨by decide,
   timer_error_propagated_channel_error_panics initialSource
     [ChannelEvent.Msg .StopRepeat] { code := 1 } { code := 2 }
     (Except.ok none) (by decide)⟩
